import Mathlib

/-!
Verification development for the key-allocation core of the landingpage
server (Django app `distribution` / `server` / `lp_server.reputation`).

The Python source is shallowly embedded: Django model rows become Lean
structures, querysets become lists, the ORM database becomes an explicit
`DB` value threaded through the functions, remote backend calls become
environment-supplied outcomes, and `random.*` draws become explicit
parameters.  Machine integers are modelled as `Int`/`Nat` (Python ints are
unbounded, so no wrap-around is needed).  Exceptions become `Except`-style
results.
-/

namespace LP

/-- Distribution model constants, `server.models.DistributionModelChoice`
(`BASIC = 0`, `LOCATIONED = 1`, `FIXED_IP = 2`).  The Python code stores the
model as a plain integer and compares with `==`, any other value falling into
the `else` (basic) branch, so we keep it as `Int`. -/
def BASIC : Int := 0

/-- `DistributionModelChoice.LOCATIONED = 1`. -/
def LOCATIONED : Int := 1

/-- `DistributionModelChoice.FIXED_IP = 2`. -/
def FIXED_IP : Int := 2

/-- An `OutlineServer` row (`server.models.OutlineServer`, fields used by the
allocation core).  `location` is a nullable foreign key, kept as the location
id. -/
structure OutlineServer where
  id : Nat
  stype : String            -- `type` column: "legacy" | "central" | "gtf"
  name : String := ""
  active : Bool
  is_blocked : Bool := false
  is_distributing : Bool
  level : Int := 0
  dist_model : Int := BASIC
  user_src : String := "NA"
  location : Option Nat := none
  label : Option String := none
  deriving Repr, DecidableEq

/-- `Server.is_working` from `server/models.py`: not blocked, distributing
and active. -/
def OutlineServer.is_working (s : OutlineServer) : Bool :=
  !s.is_blocked && s.is_distributing && s.active

/-- A `Vpnuser` row (fields the allocation core reads). -/
structure Vpnuser where
  id : Nat
  username : String
  channel : String := "NA"
  reputation : Int := 0
  banned : Bool := false
  deriving Repr, DecidableEq

/-- Deletion cause choices, `distribution.models.DeletionCause`. -/
inductive DeletionCause where
  | NA
  | INACTIVE
  deriving Repr, DecidableEq

/-- An `OutlineUser` row (a credential, `distribution.models.OutlineUser`).
`user` is a nullable foreign key (kept as the user id); `server` is a
non-nullable foreign key kept as the server id.  `transfer` is a float column
that is only ever stored, never computed with, so a rational stands in for
it. -/
structure Credential where
  id : Nat
  user : Option Nat
  server : Nat
  outline_key_id : Nat
  outline_key : String := ""
  reputation : Int := 0
  transfer : Option ℚ := none
  user_issue : Option Nat := none
  active : Bool := true
  removed : Bool := false
  exists_on_server : Bool := true
  group_id : Option Int := none
  delete_date : Option Int := none
  deletion_cause : DeletionCause := .NA
  request_type : String := "legacy"
  deriving Repr, DecidableEq

/-! ## Reputation & tiering engine (`lp_server/reputation.py`) -/

/-- Inner scan of `ReputationSystem.server_level`: Python iterates
`for n in reversed(range(len(reputation_map)))` and breaks at the first
`n` with `user_reputation >= reputation_map[n]`, defaulting to `level = 0`. -/
def server_level_scan (reputation_map : List Int) (user_reputation : Int) :
    Nat → Nat
  | 0 => 0
  | n + 1 =>
    if user_reputation ≥ reputation_map.getD n 0 then n
    else server_level_scan reputation_map user_reputation n

/-- `ReputationSystem.server_level`: the threshold table comes from settings
(`REPUTATION_MAP`, defaulting to `[0, 1, 2, 3]`); we take it as a
parameter. -/
def server_level (reputation_map : List Int) (user_reputation : Int) : Nat :=
  server_level_scan reputation_map user_reputation reputation_map.length

/-- `ReputationSystem.after_new_key`: reputation increases by one. -/
def after_new_key (curr_rep : Int) : Int := curr_rep + 1

/-! ## `increase_reputation` (`OutlineuserSerializer.increase_reputation`) -/

/-- Environment lookup of a credential's server row; the Python code guards
with `key.server and key.server.is_working()`, so a missing server counts as
not working. -/
def serverWorking (serverOf : Nat → Option OutlineServer) (c : Credential) :
    Bool :=
  match serverOf c.server with
  | some s => s.is_working
  | none => false

/-- `OutlineuserSerializer.increase_reputation`.  `keys` is the queryset
`user.outline_keys.all()` in its database order (`first()` takes the head).
For `LOCATIONED`: false on an empty set, otherwise true iff some key's server
is working.  For `FIXED_IP`: false (unimplemented).  Any other model takes
the basic branch: the first key's server must exist and be working. -/
def increase_reputation (serverOf : Nat → Option OutlineServer)
    (keys : List Credential) (dist_model : Int) : Bool :=
  if dist_model = LOCATIONED then
    if keys.length = 0 then false
    else keys.any (fun key => serverWorking serverOf key)
  else if dist_model = FIXED_IP then
    false
  else
    match keys.head? with
    | some outline_user => serverWorking serverOf outline_user
    | none => false

/-! ## `find_server` (`OutlineuserSerializer.find_server`)

The queryset is a list of servers annotated with `usercount`; the
`random.randint(0, 100)` draw is the explicit parameter `prob`.  The Python
loop interleaves the zero-usercount short-circuit with the accumulation of
`inverse_total`; since it returns at the first zero-count server (before any
division by its count), and the total is only used when no count is zero,
the two phases below are extensionally the code's single loop. -/

/-- A pool entry: a server together with its annotated live-user count. -/
structure AnnServer where
  server : OutlineServer
  usercount : Nat
  deriving Repr, DecidableEq

/-- First server in the pool with `usercount == 0` (the loop's early
return). -/
def firstZeroCount : List AnnServer → Option AnnServer
  | [] => none
  | s :: rest => if s.usercount = 0 then some s else firstZeroCount rest

/-- `inverse_total`: sum of `1 / usercount` over the pool (only used on
pools with no zero count). -/
def inverseTotal (servers : List AnnServer) : ℚ :=
  servers.foldl (fun acc s => acc + 1 / (s.usercount : ℚ)) 0

/-- The cumulative-weight walk: subtract `(1/usercount) * (1/inverse_total)
* 100` from `prob` for each server in order and stop (`break`) once it drops
to `≤ 0`; if the walk never breaks, the Python `for` leaves the last server
in the loop variable. -/
def weightWalk (invTotal : ℚ) : List AnnServer → ℚ → Option AnnServer
  | [], _ => none
  | [s], _ => some s
  | s :: rest, prob =>
    let prob' := prob - (1 / (s.usercount : ℚ)) * (1 / invTotal) * 100
    if prob' ≤ 0 then some s else weightWalk invTotal rest prob'

/-- `OutlineuserSerializer.find_server`.  `count > 1` runs the zero-count
short-circuit then the weighted walk; otherwise `servers.first()` (`none` on
an empty pool). -/
def find_server (servers : List AnnServer) (prob : ℚ) : Option AnnServer :=
  if servers.length > 1 then
    match firstZeroCount servers with
    | some s => some s
    | none => weightWalk (inverseTotal servers) servers prob
  else
    servers.head?

/-! ## Database -/

/-- The `OutlineUser` table with an auto-increment primary key counter. -/
structure DB where
  credentials : List Credential
  nextId : Nat := 1
  deriving Repr, DecidableEq

/-- The `usercount` annotation:
`Count('users', filter=Q(users__active=True, users__removed=False),
distinct=True)` — the number of credential rows on the server that are
active and not removed. -/
def DB.usercount (db : DB) (sid : Nat) : Nat :=
  (db.credentials.filter
    (fun c => c.server == sid && c.active && !c.removed)).length

/-- Server ids of all of the user's previous keys
(`OutlineUser.objects.filter(user=user)`; the Python code builds
`list(set(...))`, used only for membership in `exclude`). -/
def DB.prevServerIds (db : DB) (userId : Nat) : List Nat :=
  (db.credentials.filter (fun c => c.user == some userId)).map (·.server)

/-! ## `get_server_by_level` (`OutlineuserSerializer.get_server_by_level`) -/

/-- Insert into a list sorted by descending usercount (stable: equal counts
keep their relative order).  Models the `order_by('-usercount')`. -/
def insertDescUC (s : AnnServer) : List AnnServer → List AnnServer
  | [] => [s]
  | t :: rest =>
    if t.usercount < s.usercount then s :: t :: rest
    else t :: insertDescUC s rest

/-- Sort by descending usercount. -/
def sortDescUC : List AnnServer → List AnnServer
  | [] => []
  | s :: rest => insertDescUC s (sortDescUC rest)

/-- The base queryset filter of `get_server_by_level`: legacy type, active,
distributing, distribution model and channel match, with the tier filter
`level=level` when `limited` else `level__gt=level` (strictly greater). -/
def baseFilter (user : Vpnuser) (level : Int) (limited : Bool)
    (dist_model : Int) (s : OutlineServer) : Bool :=
  s.stype == "legacy" && s.active && s.is_distributing &&
    (if limited then s.level == level else decide (s.level > level)) &&
    s.dist_model == dist_model && s.user_src == user.channel

/-- `OutlineuserSerializer.get_server_by_level`: filter the server table,
optionally restrict to a location, optionally exclude the user's previous
servers, then annotate with usercount and order by `-usercount`. -/
def get_server_by_level (servers : List OutlineServer) (db : DB)
    (user : Vpnuser) (level : Int) (limited exclude : Bool)
    (dist_model : Int) (location : Option Nat) : List AnnServer :=
  let q := servers.filter (baseFilter user level limited dist_model)
  let q := match location with
    | some l => q.filter (fun (s : OutlineServer) => s.location == some l)
    | none => q
  let q :=
    if exclude then
      q.filter (fun s => !(db.prevServerIds user.id).contains s.id)
    else q
  sortDescUC (q.map (fun s => ⟨s, db.usercount s.id⟩))

/-- The pool of the spec's wording: identical to `get_server_by_level`
except that the relaxed tier filter is "tier or higher" (`level ≥ level`)
instead of the code's strictly-higher `level__gt`.  Used to state the
refinement in C4. -/
def specBaseFilter (user : Vpnuser) (level : Int) (limited : Bool)
    (dist_model : Int) (s : OutlineServer) : Bool :=
  s.stype == "legacy" && s.active && s.is_distributing &&
    (if limited then s.level == level else decide (s.level ≥ level)) &&
    s.dist_model == dist_model && s.user_src == user.channel

/-- Modelled from the spec: `get_server_by_level` with the "tier or higher"
relaxation. -/
def get_server_by_level_spec (servers : List OutlineServer) (db : DB)
    (user : Vpnuser) (level : Int) (limited exclude : Bool)
    (dist_model : Int) (location : Option Nat) : List AnnServer :=
  let q := servers.filter (specBaseFilter user level limited dist_model)
  let q := match location with
    | some l => q.filter (fun (s : OutlineServer) => s.location == some l)
    | none => q
  let q :=
    if exclude then
      q.filter (fun s => !(db.prevServerIds user.id).contains s.id)
    else q
  sortDescUC (q.map (fun s => ⟨s, db.usercount s.id⟩))

/-! ## `get_server` (`OutlineuserSerializer.get_server`)

Random draws are an explicit stream `draws : Nat → ℚ` indexed by the number
of `find_server` calls made so far in this `get_server` call. -/

/-- One location's attempt loop: `for exclude in [True, False]: for limited
in [True, False]`, stopping at the first pool whose `find_server` yields a
server.  Returns the chosen server (if any) and the updated draw counter. -/
def tryPools (draws : Nat → ℚ) :
    List (List AnnServer) → Nat → Option AnnServer × Nat
  | [], n => (none, n)
  | p :: rest, n =>
    match find_server p (draws n) with
    | some s => (some s, n + 1)
    | none => tryPools draws rest (n + 1)

/-- The per-location pool list in the code's loop order:
`(exclude, limited) = (T,T), (T,F), (F,T), (F,F)`. -/
def poolsAt (mk : Bool → Bool → Option Nat → List AnnServer)
    (loc : Option Nat) : List (List AnnServer) :=
  [mk true true loc, mk false true loc, mk true false loc, mk false false loc]

/-- Iterate the locations, collecting one server per location when some pool
is non-empty (a location whose pools are all empty is only logged). -/
def get_server_go (mk : Bool → Bool → Option Nat → List AnnServer)
    (draws : Nat → ℚ) : List (Option Nat) → Nat → List AnnServer
  | [], _ => []
  | loc :: rest, n =>
    match tryPools draws (poolsAt mk loc) n with
    | (some s, n') => s :: get_server_go mk draws rest n'
    | (none, n') => get_server_go mk draws rest n'

/-- `OutlineuserSerializer.get_server`.  `activeLocations` is
`Location.objects.filter(active=True)` (ids); for the location-based model
the `location` parameter is ignored and every active location is tried. -/
def get_server (servers : List OutlineServer) (db : DB)
    (activeLocations : List Nat) (user : Vpnuser) (level : Int)
    (dist_model : Int) (location : Option Nat) (draws : Nat → ℚ) :
    List AnnServer :=
  let locations : List (Option Nat) :=
    if dist_model = LOCATIONED then activeLocations.map some else [location]
  get_server_go
    (fun lim ex loc => get_server_by_level servers db user level lim ex
      dist_model loc)
    draws locations 0

/-- Modelled from the spec: `get_server` drawing from the spec-worded pools
("tier or higher" relaxation), same priority order. -/
def get_server_spec (servers : List OutlineServer) (db : DB)
    (activeLocations : List Nat) (user : Vpnuser) (level : Int)
    (dist_model : Int) (location : Option Nat) (draws : Nat → ℚ) :
    List AnnServer :=
  let locations : List (Option Nat) :=
    if dist_model = LOCATIONED then activeLocations.map some else [location]
  get_server_go
    (fun lim ex loc => get_server_by_level_spec servers db user level lim ex
      dist_model loc)
    draws locations 0

/-! ## `deactivate` / `reactivate` (`distribution.models.OutlineUser`) -/

/-- `OutlineUser.deactivate(issue, transfer)`: only legacy credentials are
touched. -/
def Credential.deactivate (c : Credential) (issue : Option Nat)
    (transfer : Option ℚ) : Credential :=
  if c.request_type = "legacy" then
    { c with
      user_issue := issue
      transfer := transfer
      removed := true
      delete_date := none
      deletion_cause := .NA }
  else c

/-- `OutlineUser.reactivate()`: only legacy credentials are touched. -/
def Credential.reactivate (c : Credential) : Credential :=
  if c.request_type = "legacy" then
    { c with
      user_issue := none
      transfer := none
      removed := false
      delete_date := none
      deletion_cause := .NA }
  else c

/-! ## `remove_key_from_server` (`OutlineuserSerializer.remove_key_from_server`)

The function takes a list of Python dicts.  Its two call sites build them
differently: `get_key_dict` (utils.py) produces
`{id, outline_key_id, server, outline_key}` while the rollback path in
`create` passes the `created_keys` dicts
`{server, outline_key_id, outline_key, exists_on_server}` — without `id`.
A dict is therefore modelled with optional fields; reading an absent field
raises `KeyError`. -/

/-- A Python dict as passed to `remove_key_from_server`. -/
structure KeyDict where
  idField : Option Nat := none            -- key['id']
  server : Option Nat := none             -- key['server'] (server id)
  outline_key_id : Option Nat := none     -- key['outline_key_id']
  outline_key : Option String := none     -- key['outline_key']
  exists_on_server : Option Bool := none  -- key['exists_on_server']
  deriving Repr, DecidableEq

/-- `get_key_dict(keys)` from `distribution/utils.py`. -/
def get_key_dict (keys : List Credential) : List KeyDict :=
  keys.map (fun key =>
    { idField := some key.id
      outline_key_id := some key.outline_key_id
      server := some key.server
      outline_key := some key.outline_key })

/-- The `created_keys.append({...})` dict of `create_keys`: note the absent
`id` entry. -/
def createdKeyDict (serverId okid : Nat) (okey : String) : KeyDict :=
  { server := some serverId
    outline_key_id := some okid
    outline_key := some okey
    exists_on_server := some true }

/-- Python exceptions that can escape the modelled functions. -/
inductive PyErr where
  | keyError (field : String)       -- dict access on a missing key
  | doesNotExist                    -- OutlineServer.objects.get miss
  deriving Repr, DecidableEq

/-- Outcome of the outline manager delete call
(`_outline_manager_delete_key`). -/
inductive ManagerOutcome where
  | success
  | timeout      -- OutlineTimeoutError
  | notFound     -- DoesNotExistError
  | failure      -- any other exception
  deriving Repr, DecidableEq

/-- The backend environment: the `REAL_VPN_SERVERS` toggle, the
`OutlineServer` table, and the outcome each remote call would have
(keyed by server id and outline key id). -/
structure Backend where
  real_vpn_servers : Bool
  servers : List OutlineServer
  gtfDeleteStatus : Nat → Nat → Nat            -- HTTP status of the DELETE
  managerDelete : Nat → Nat → ManagerOutcome

/-- `OutlineServer.objects.get(id=...)`. -/
def objectsGetServer (servers : List OutlineServer) (sid : Nat) :
    Option OutlineServer :=
  servers.find? (fun s => s.id == sid)

/-- `OutlineUser.objects.filter(id=id).update(exists_on_server=False)`. -/
def DB.setNotOnServer (db : DB) (i : Nat) : DB :=
  { db with
    credentials := db.credentials.map (fun c =>
      if c.id = i then { c with exists_on_server := false } else c) }

/-- Result of `remove_key_from_server`: the failed-key list (meaningful only
when no exception escaped), the database, and the log of remote delete calls
actually issued (GTF HTTP DELETEs and outline-manager deletes, as
`(server id, outline key id)` pairs). -/
structure RemoveOut where
  err : Option PyErr
  failed : List Nat
  db : DB
  gtfCalls : List (Nat × Nat)
  managerCalls : List (Nat × Nat)
  deriving Repr, DecidableEq

/-- The loop of `remove_key_from_server`, with accumulators.  Faithful to the
source's control flow, including the missing `continue` after the GTF
branch: an active GTF server falls through into the central/legacy manager
delete. -/
def remove_key_go (be : Backend) :
    List KeyDict → List Nat → DB → List (Nat × Nat) → List (Nat × Nat) →
    RemoveOut
  | [], failed, db, g, m => ⟨none, failed, db, g, m⟩
  | key :: rest, failed, db, g, m =>
    match key.idField with
    | none => ⟨some (.keyError "id"), failed, db, g, m⟩
    | some i =>
      if be.real_vpn_servers then
        match key.server with
        | none => ⟨some (.keyError "server"), failed, db, g, m⟩
        | some sid =>
          match key.outline_key_id with
          | none => ⟨some (.keyError "outline_key_id"), failed, db, g, m⟩
          | some okid =>
            match objectsGetServer be.servers sid with
            | none => ⟨some .doesNotExist, failed, db, g, m⟩
            | some server =>
              -- "Removing key created using GTF API"
              let st :=
                if server.stype = "gtf" then
                  let status := be.gtfDeleteStatus sid okid
                  if status = 404 then
                    (failed, db.setNotOnServer i, g ++ [(sid, okid)])
                  else if status = 200 then
                    (failed, db.setNotOnServer i, g ++ [(sid, okid)])
                  else
                    (failed ++ [i], db, g ++ [(sid, okid)])
                else (failed, db, g)
              -- "Removing key created using Central or Legacy system"
              -- "Skip calling inactive servers"
              if server.active = false then
                remove_key_go be rest st.1 (st.2.1.setNotOnServer i) st.2.2 m
              else
                match be.managerDelete sid okid with
                | .success =>
                  remove_key_go be rest st.1 (st.2.1.setNotOnServer i)
                    st.2.2 (m ++ [(sid, okid)])
                | .timeout =>
                  remove_key_go be rest (st.1 ++ [i]) st.2.1
                    st.2.2 (m ++ [(sid, okid)])
                | .notFound =>
                  remove_key_go be rest st.1 (st.2.1.setNotOnServer i)
                    st.2.2 (m ++ [(sid, okid)])
                | .failure =>
                  remove_key_go be rest (st.1 ++ [i]) st.2.1
                    st.2.2 (m ++ [(sid, okid)])
      else
        -- non-real mode: only the local flag is cleared, then the final
        -- log line reads key['outline_key_id']
        match key.outline_key_id with
        | none =>
          ⟨some (.keyError "outline_key_id"), failed, db.setNotOnServer i,
            g, m⟩
        | some _ =>
          remove_key_go be rest failed (db.setNotOnServer i) g m

/-- `OutlineuserSerializer.remove_key_from_server`. -/
def remove_key_from_server (be : Backend) (db : DB) (keys : List KeyDict) :
    RemoveOut :=
  remove_key_go be keys [] db [] []

/-! ## URL rewriting (`distribution/utils.py`)

`replace_port` substitutes every `:(\d{2,})/` (or, for GTF keys,
`:(\d{2,})?outline`) occurrence; `replace_ip` substitutes the authority part
`@(.*):` (greedy, so up to the last colon).  Both are total string
rewrites. -/

/-- Length of the leading run of ASCII digits. -/
def digitRun : List Char → Nat
  | [] => 0
  | c :: rest => if c.isDigit then digitRun rest + 1 else 0

/-- Substitute every occurrence of `:<digits (≥2)><sfx>` by
`:<portStr><sfx>`, scanning left to right over non-overlapping matches
(the semantics of `re.sub` for these two patterns, where the digit run is
maximal because the character after it is not a digit). -/
def subPort (sfx portStr : List Char) : List Char → List Char
  | [] => []
  | c :: rest =>
    if c = ':' then
      let n := digitRun rest
      if 2 ≤ n && sfx.isPrefixOf (rest.drop n) then
        ':' :: (portStr ++ sfx ++ subPort sfx portStr
          (rest.drop (n + sfx.length)))
      else c :: subPort sfx portStr rest
    else c :: subPort sfx portStr rest
termination_by l => l.length
decreasing_by
  · simpa using Nat.lt_succ_of_le (Nat.sub_le _ _)
  · simp
  · simp

/-- Does the string contain a `:<digits (≥2)><sfx>` match
(`re.findall(...) != []`)? -/
def hasPortMatch (sfx : List Char) : List Char → Bool
  | [] => false
  | c :: rest =>
    (c == ':' && (2 ≤ digitRun rest &&
      sfx.isPrefixOf (rest.drop (digitRun rest)))) || hasPortMatch sfx rest

/-- `replace_port(outline_key, new_port)`: the GTF pattern takes precedence
when it matches anywhere; a `None` port is interpolated as the literal
string `None` by the f-string. -/
def replace_port (outline_key : String) (new_port : Option Int) : String :=
  let portStr := (match new_port with
    | some p => toString p
    | none => "None").toList
  let cs := outline_key.toList
  if hasPortMatch ("?outline".toList) cs then
    String.mk (subPort ("?outline".toList) portStr cs)
  else
    String.mk (subPort ("/".toList) portStr cs)

/-- `replace_ip(outline_key, host_name)`: the regex `@(.*):` greedily spans
from the first `@` to the last `:` after it; everything in between is
replaced by the host name.  With no `@`, or no `:` after the first `@`,
nothing matches and the key is returned unchanged. -/
def replace_ip (outline_key host_name : String) : String :=
  let cs := outline_key.toList
  match cs.findIdx? (fun c => c == '@') with
  | none => outline_key
  | some ia =>
    let after := cs.drop (ia + 1)
    match after.reverse.findIdx? (fun c => c == ':') with
    | none => outline_key
    | some rj =>
      let j := after.length - 1 - rj
      String.mk (cs.take ia ++ ('@' :: host_name.toList) ++
        (':' :: after.drop (j + 1)))

/-! ## `create_keys` / `create` (`OutlineuserSerializer`) -/

/-- `random.choice(l)`: the environment supplies the draw as an index, taken
modulo the list length; an empty sequence raises (here: `none`). -/
def randChoice (idx : Nat) : List α → Option α
  | [] => none
  | x :: rest => (x :: rest).get? (idx % (rest.length + 1))

/-- A `LoadBalancer` row (`distribution.models.LoadBalancer`). -/
structure LoadBalancer where
  host_name : String
  server : Option Nat := none
  is_active : Bool := true
  replaces_ip : Bool := true
  deriving Repr, DecidableEq

/-- A `Prefix` row (`distribution.models.Prefix`): nullable port and the
prefix string. -/
structure PfxEntry where
  port : Option Int := none
  pfx_str : String
  is_active : Bool := true
  deriving Repr, DecidableEq

/-- Environment of a `create` call: the backend (with the `OutlineServer`
table and remote-call outcomes), the auxiliary tables, and every random
draw the code makes, as explicit values/streams. -/
structure Env where
  be : Backend
  activeLocations : List Nat := []
  reputation_map : List Int := [0, 1, 2, 3]
  loadBalancers : List LoadBalancer := []
  pfxTable : List PfxEntry := []
  provision : Nat → Option (Nat × String)  -- create_key_on_server outcome
  gtfCreate : Nat → Option (Nat × String)  -- create_keys_gtf outcome
  draws : Nat → ℚ := fun _ => 0            -- randint(0,100) stream
  pfxIdx : Nat → Nat := fun _ => 0         -- per-iteration pfx choice index
  lbIdx : Nat := 0
  centralIdx : Nat := 0
  gtfIdx : Nat := 0
  typeIdx : Nat := 0
  gtfCoin : Bool := false                  -- weighted gtf-vs-central pick
  issueExists : Nat → Bool := fun _ => false

/-- All of a user's credential rows
(`user.outline_keys`, in insertion order). -/
def DB.userKeys (db : DB) (uid : Nat) : List Credential :=
  db.credentials.filter (fun c => c.user == some uid)

/-- `OutlineUser.objects.aggregate(max=Max('group_id'))['max']`: the maximum
over non-null group ids, `none` when there are none. -/
def maxGroupId (db : DB) : Option Int :=
  (db.credentials.filterMap (·.group_id)).foldl
    (fun acc g =>
      match acc with
      | none => some g
      | some m => some (max m g)) none

/-- `group_id = int(group_id) + 1 if group_id else 1`: note that both a
missing maximum and a maximum of `0` (falsy) yield `1`. -/
def nextGroupId (db : DB) : Int :=
  match maxGroupId db with
  | none => 1
  | some m => if m = 0 then 1 else m + 1

/-- Failures of `create_keys` (each a distinct `NotAcceptable` message in
the source). -/
inductive CKErr where
  | noServer         -- 'No server found for user ...'
  | keyCreation      -- 'Outline key creation error'
  | noCentral        -- 'No central server found ...'
  | gtfCreateFailed  -- gtf branch failure, NotAcceptable(f'{exc}')
  | badRequestType   -- 'Request type is not acceptable'
  | noLoadBalancer   -- 'Active load balancer for server ... not found'
  deriving Repr, DecidableEq

/-- Result of `create_keys`: outcome (the created row and the last
`prefix_str`), database, the `created_keys` list (mutated in place in the
source, so visible to the caller even on failure), and the possibly-updated
user row. -/
structure CKOut where
  result : Except CKErr (Option Credential × Option String)
  db : DB
  created_keys : List KeyDict
  user : Vpnuser
  deriving Repr

/-- The per-server loop of the legacy branch of `create_keys`: provision on
the server, apply an optional active-prefix port rewrite, append to
`created_keys`, insert the credential row.  A provisioning failure raises
(keeping the `created_keys` appended so far). -/
def legacyLoop (env : Env) (user : Vpnuser) (group_id : Option Int)
    (new_rep : Int) :
    List AnnServer → DB → List KeyDict → Nat → Option Credential →
    Option String → (Except CKErr (Option Credential × Option String)) ×
      DB × List KeyDict
  | [], db, ck, _, ou, pstr => (.ok (ou, pstr), db, ck)
  | a :: rest, db, ck, k, _, _ =>
    match env.provision a.server.id with
    | none => (.error .keyCreation, db, ck)
    | some (okid, okey) =>
      let pick := randChoice (env.pfxIdx k) (env.pfxTable.filter
        (·.is_active))
      let pstr : Option String := pick.map (·.pfx_str)
      let okey := match pick with
        | some p => replace_port okey p.port
        | none => okey
      let row : Credential :=
        { id := db.nextId
          user := some user.id
          server := a.server.id
          outline_key_id := okid
          outline_key := okey
          reputation := new_rep
          group_id := group_id
          request_type := "legacy" }
      legacyLoop env user group_id new_rep rest
        { credentials := db.credentials ++ [row], nextId := db.nextId + 1 }
        (ck ++ [createdKeyDict a.server.id okid okey]) (k + 1) (some row)
        pstr

/-- The shared tail of the central and gtf branches of `create_keys`
(lines 726-763): mandatory load-balancer lookup (hard failure when absent),
optional host rewrite (not for gtf), optional prefix port rewrite, then one
credential row (no group id; reputation takes the column default 0). -/
def centralGtfTail (env : Env) (user : Vpnuser) (request_type : String)
    (server : OutlineServer) (okid : Nat) (okey : String) (db : DB) :
    CKOut :=
  let lbs := env.loadBalancers.filter
    (fun lb => lb.server == some server.id && lb.is_active)
  match randChoice env.lbIdx lbs with
  | none => ⟨.error .noLoadBalancer, db, [], user⟩
  | some lb =>
    let okey :=
      if request_type ≠ "gtf" && lb.replaces_ip then
        replace_ip okey lb.host_name
      else okey
    let pick := randChoice (env.pfxIdx 0) (env.pfxTable.filter (·.is_active))
    let pstr : Option String := pick.map (·.pfx_str)
    let okey := match pick with
      | some p => replace_port okey p.port
      | none => okey
    let row : Credential :=
      { id := db.nextId
        user := some user.id
        server := server.id
        outline_key_id := okid
        outline_key := okey
        request_type := request_type }
    ⟨.ok (some row, pstr),
      { credentials := db.credentials ++ [row], nextId := db.nextId + 1 },
      [createdKeyDict server.id okid okey], user⟩

/-- `OutlineuserSerializer.create_keys`. -/
def create_keys (env : Env) (user : Vpnuser) (request_type : String)
    (modelParam : Option Int) (db : DB) : CKOut :=
  if request_type = "legacy" then
    let dist_model := modelParam.getD BASIC
    let group_id : Option Int :=
      if dist_model = LOCATIONED then some (nextGroupId db) else none
    let keys := db.userKeys user.id
    let new_rep :=
      if increase_reputation (objectsGetServer env.be.servers) keys
          dist_model then
        after_new_key user.reputation
      else user.reputation
    let level := server_level env.reputation_map new_rep
    let server_list := get_server env.be.servers db env.activeLocations user
      (level : Int) dist_model none env.draws
    if server_list.isEmpty then ⟨.error .noServer, db, [], user⟩
    else
      match legacyLoop env user group_id new_rep server_list db [] 0 none
          none with
      | (.error e, db', ck) => ⟨.error e, db', ck, user⟩
      | (.ok r, db', ck) =>
        let user' :=
          if new_rep = user.reputation then user
          else { user with reputation := new_rep }
        ⟨.ok r, db', ck, user'⟩
  else if request_type = "central" then
    let centrals := env.be.servers.filter
      (fun s => s.stype == "central" && s.active && s.is_distributing)
    match randChoice env.centralIdx centrals with
    | none => ⟨.error .noCentral, db, [], user⟩
    | some server =>
      match env.provision server.id with
      | none => ⟨.error .keyCreation, db, [], user⟩
      | some (okid, okey) =>
        centralGtfTail env user "central" server okid okey db
  else if request_type = "gtf" then
    let gtfs := env.be.servers.filter
      (fun s => s.stype == "gtf" && s.active && s.is_distributing)
    match randChoice env.gtfIdx gtfs with
    | none => ⟨.error .gtfCreateFailed, db, [], user⟩
    | some server =>
      match env.gtfCreate server.id with
      | none => ⟨.error .gtfCreateFailed, db, [], user⟩
      | some (okid, okey) =>
        centralGtfTail env user "gtf" server okid okey db
  else ⟨.error .badRequestType, db, [], user⟩

/-- Failures a `create` call can end with. -/
inductive CreateErr where
  | userNotFound      -- 'User does not exist'
  | duplicateKey      -- 'User already has a key'
  | userBanned        -- 'User ... is banned'
  | indexError        -- list(zip(*active_types))[0] on an empty table
  | rollback (e : PyErr)   -- exception escaping the rollback removal
  | cleanup (e : PyErr)    -- exception escaping the old-key removal
  | allocation (inner : CKErr)  -- 'Unable to create keys for user ...'
  deriving Repr, DecidableEq

/-- Result of `create`: outcome, final database, the updated user row, and
the log of remote delete calls issued along the way. -/
structure CreateOut where
  result : Except CreateErr (Option Credential)
  db : DB
  user : Option Vpnuser
  gtfCalls : List (Nat × Nat)
  managerCalls : List (Nat × Nat)
  deriving Repr

/-- The distinct `type` values among active, distributing servers
(`active_types_list`), in first-occurrence order. -/
def distinctTypes (servers : List OutlineServer) : List String :=
  (servers.filter (fun s => s.active && s.is_distributing)).foldl
    (fun acc s => if acc.contains s.stype then acc else acc ++ [s.stype]) []

/-- `remove_keys_from_db(keys, user_issue)`: validate the issue id, then
refresh each key from the database and `deactivate` it (transfer `None`). -/
def remove_keys_from_db (env : Env) (db : DB) (keys : List Credential)
    (user_issue : Option Nat) : DB :=
  let issue : Option Nat :=
    match user_issue with
    | some i => if env.issueExists i then some i else none
    | none => none
  keys.foldl (fun db key =>
    { db with
      credentials := db.credentials.map (fun c =>
        if c.id = key.id then c.deactivate issue none else c) }) db

/-- `OutlineuserSerializer.create`.  `username` is the (already hashed) user
identifier; `request_type?` and `modelParam` are the optional request
fields.  The `create_keys` call runs inside `transaction.atomic()`: on any
exception the row inserts are rolled back, the keys already created on
backend servers are passed to `remove_key_from_server` (the `created_keys`
dicts), and the call fails with the allocation error — unless that removal
itself raises, in which case its exception propagates.  On success, the
user's previous legacy keys are removed from their servers and deactivated
in the database. -/
def create_checked (env : Env) (user : Vpnuser) (db : DB)
    (request_type? : Option String) (modelParam : Option Int)
    (user_issue : Option Nat) : CreateOut :=
    if db.credentials.any (fun c =>
        c.user == some user.id && c.request_type != "legacy") then
      ⟨.error .duplicateKey, db, none, [], []⟩
    else if user.banned then
      ⟨.error .userBanned, db, none, [], []⟩
    else
      let active_types_list := distinctTypes env.be.servers
      if active_types_list.isEmpty then
        ⟨.error .indexError, db, none, [], []⟩
      else
        let random_request_type :=
          if active_types_list.all (fun t =>
              t == "gtf" || t == "central") &&
              active_types_list.length = 2 then
            if env.gtfCoin then "gtf" else "central"
          else
            (randChoice env.typeIdx active_types_list).getD ""
        let request_type := request_type?.getD random_request_type
        let last_keys := (db.userKeys user.id).filter
          (fun c => c.request_type == "legacy")
        let ck := create_keys env user request_type modelParam db
        match ck.result with
        | .error e =>
          -- transaction.atomic rolled the inserts back: continue from `db`
          if ck.created_keys.isEmpty then
            ⟨.error (.allocation e), db, none, [], []⟩
          else
            let rout := remove_key_from_server env.be db ck.created_keys
            match rout.err with
            | some pe =>
              ⟨.error (.rollback pe), rout.db, none, rout.gtfCalls,
                rout.managerCalls⟩
            | none =>
              ⟨.error (.allocation e), rout.db, none, rout.gtfCalls,
                rout.managerCalls⟩
        | .ok (outline_user, _) =>
          if last_keys.isEmpty then
            ⟨.ok outline_user, ck.db, some ck.user, [], []⟩
          else
            let rout := remove_key_from_server env.be ck.db
              (get_key_dict last_keys)
            match rout.err with
            | some pe =>
              ⟨.error (.cleanup pe), rout.db, some ck.user, rout.gtfCalls,
                rout.managerCalls⟩
            | none =>
              let db' := remove_keys_from_db env rout.db last_keys
                user_issue
              ⟨.ok outline_user, db', some ck.user, rout.gtfCalls,
                rout.managerCalls⟩

/-- `OutlineuserSerializer.create`: look the (already hashed) user up, then
run the checked creation. -/
def create (env : Env) (users : List Vpnuser) (db : DB) (username : String)
    (request_type? : Option String) (modelParam : Option Int)
    (user_issue : Option Nat) : CreateOut :=
  match users.find? (fun u => u.username == username) with
  | none => ⟨.error .userNotFound, db, none, [], []⟩
  | some user => create_checked env user db request_type? modelParam
      user_issue

/-! ## Concrete fixtures and derived definitions used by the theorems -/

/-- Mark every credential whose id is in `ids` as no longer on its server
(the cumulative effect of the simulated-mode loop). -/
def DB.markAll (db : DB) (ids : List Nat) : DB :=
  { db with
    credentials := db.credentials.map (fun c =>
      if ids.contains c.id then { c with exists_on_server := false }
      else c) }

/-- A simulated-mode backend fixture. -/
def simBackend : Backend :=
  { real_vpn_servers := false
    servers := []
    gtfDeleteStatus := fun _ _ => 200
    managerDelete := fun _ _ => .success }

/-- Two credential rows used by the C10 witness. -/
def simRows : List Credential :=
  [{ id := 1, user := some 1, server := 7, outline_key_id := 9 },
   { id := 2, user := some 1, server := 8, outline_key_id := 4 }]

/-- The credential used in the C3 divergence run: a third-party (GTF) key. -/
def gtfCred : Credential :=
  { id := 1, user := some 1, server := 7, outline_key_id := 9,
    request_type := "gtf" }

/-- Real-backend fixture for C3: one active GTF server whose HTTP DELETE
answers 404 and on which the (erroneously reached) outline-manager delete
raises. -/
def gtfServer : OutlineServer :=
  { id := 7, stype := "gtf", active := true, is_distributing := true }

/-- Real-backend fixture for C3 (continued). -/
def gtfBackend : Backend :=
  { real_vpn_servers := true
    servers := [gtfServer]
    gtfDeleteStatus := fun _ _ => 404
    managerDelete := fun _ _ => .failure }

/-- The C3 removal run. -/
def gtfRun : RemoveOut :=
  remove_key_from_server gtfBackend ⟨[gtfCred], 2⟩ (get_key_dict [gtfCred])

/-- The user of the C1 run. -/
def c1user : Vpnuser := { id := 1, username := "u", channel := "TG" }

/-- Location-based legacy server in location 10. -/
def c1s1 : OutlineServer :=
  { id := 1, stype := "legacy", active := true, is_distributing := true,
    level := 0, dist_model := LOCATIONED, user_src := "TG",
    location := some 10 }

/-- Location-based legacy server in location 20. -/
def c1s2 : OutlineServer :=
  { id := 2, stype := "legacy", active := true, is_distributing := true,
    level := 0, dist_model := LOCATIONED, user_src := "TG",
    location := some 20 }

/-- C1 environment: two active locations, provisioning succeeds on server 1
and raises on server 2 (the second provisioning call of the batch). -/
def c1env : Env :=
  { be :=
      { real_vpn_servers := true
        servers := [c1s1, c1s2]
        gtfDeleteStatus := fun _ _ => 200
        managerDelete := fun _ _ => .success }
    activeLocations := [10, 20]
    provision := fun sid =>
      if sid = 1 then some (11, "ss://YWJjOmRlZg@1.1.1.1:200/") else none
    gtfCreate := fun _ => none }

/-- The C1 run: a location-based legacy create whose second provisioning
call fails. -/
def c1run : CreateOut :=
  create c1env [c1user] ⟨[], 1⟩ "u" (some "legacy") (some LOCATIONED) none

/-- A removed, inactive third-party credential of user 1: under the claim it
must not block a new create. -/
def c2cred : Credential :=
  { id := 1, user := some 1, server := 7, outline_key_id := 9,
    active := false, removed := true, request_type := "gtf" }

/-- A minimal environment for the C2 runs. -/
def c2env : Env :=
  { be :=
      { real_vpn_servers := false
        servers := []
        gtfDeleteStatus := fun _ _ => 200
        managerDelete := fun _ _ => .success }
    provision := fun _ => none
    gtfCreate := fun _ => none }

/-- The C2 counterexample run. -/
def c2run : CreateOut :=
  create c2env [c1user] ⟨[c2cred], 2⟩ "u" (some "gtf") none none

/-- The tier the legacy branch of `create_keys` computes before selecting
servers (its `new_rep` / `level` locals). -/
def chosenLevel (env : Env) (user : Vpnuser) (db : DB) (dist_model : Int) :
    Nat :=
  server_level env.reputation_map
    (if increase_reputation (objectsGetServer env.be.servers)
        (db.userKeys user.id) dist_model then
      after_new_key user.reputation
    else user.reputation)

/-- The user of the C8 witness run. -/
def c8user : Vpnuser := { id := 1, username := "w", channel := "TG" }

/-- Location-based legacy server in location 10. -/
def c8s1 : OutlineServer :=
  { id := 1, stype := "legacy", active := true, is_distributing := true,
    level := 0, dist_model := LOCATIONED, user_src := "TG",
    location := some 10 }

/-- Location-based legacy server in location 20. -/
def c8s2 : OutlineServer :=
  { id := 2, stype := "legacy", active := true, is_distributing := true,
    level := 0, dist_model := LOCATIONED, user_src := "TG",
    location := some 20 }

/-- Location-based legacy server in location 30. -/
def c8s3 : OutlineServer :=
  { id := 3, stype := "legacy", active := true, is_distributing := true,
    level := 0, dist_model := LOCATIONED, user_src := "TG",
    location := some 30 }

/-- A pre-existing grouped credential of another user, so that
`Max('group_id')` is 4. -/
def c8old : Credential :=
  { id := 4, user := some 2, server := 99, outline_key_id := 1,
    group_id := some 4 }

/-- C8 witness environment: three active locations, one eligible server in
each, provisioning always succeeds. -/
def c8env : Env :=
  { be :=
      { real_vpn_servers := false
        servers := [c8s1, c8s2, c8s3]
        gtfDeleteStatus := fun _ _ => 200
        managerDelete := fun _ _ => .success }
    activeLocations := [10, 20, 30]
    provision := fun sid => some (sid + 10, "k")
    gtfCreate := fun _ => none }

/-- The last row the C8 witness run creates. -/
def c8lastRow : Credential :=
  { id := 7, user := some 1, server := 3, outline_key_id := 13,
    outline_key := "k", reputation := 0, group_id := some 5,
    request_type := "legacy" }

/-- The location restriction of `get_server_by_level` as a predicate. -/
def locPass (loc : Option Nat) (s : OutlineServer) : Bool :=
  match loc with
  | some l => s.location == some l
  | none => true

/-- The previous-servers exclusion of `get_server_by_level` as a
predicate. -/
def exPass (db : DB) (user : Vpnuser) (ex : Bool) (s : OutlineServer) :
    Bool :=
  if ex then !(db.prevServerIds user.id).contains s.id else true

/-- A basic-model legacy server for the C4 witness. -/
def c4srv : OutlineServer :=
  { id := 1, stype := "legacy", active := true, is_distributing := true,
    level := 0, dist_model := BASIC, user_src := "TG" }

/-! # Theorems -/

/-! ## Helper lemmas -/

theorem server_level_scan_zero (rm : List Int) (rep : Int) (n : Nat)
    (h : ∀ i, i < n → ¬ rep ≥ rm.getD i 0) :
    server_level_scan rm rep n = 0 := by
  induction n with
  | zero => rfl
  | succ n ih =>
    rw [server_level_scan]
    rw [if_neg (h n (Nat.lt_succ_self n))]
    exact ih (fun i hi => h i (Nat.lt_succ_of_lt hi))

theorem server_level_scan_mem (rm : List Int) (rep : Int) (n i : Nat)
    (hi : i < n) (hsat : rep ≥ rm.getD i 0) :
    server_level_scan rm rep n < n ∧
      rep ≥ rm.getD (server_level_scan rm rep n) 0 ∧
      i ≤ server_level_scan rm rep n := by
  induction n with
  | zero => exact absurd hi (Nat.not_lt_zero i)
  | succ n ih =>
    rw [server_level_scan]
    by_cases hn : rep ≥ rm.getD n 0
    · rw [if_pos hn]
      exact ⟨Nat.lt_succ_self n, hn, Nat.lt_succ_iff.mp hi⟩
    · rw [if_neg hn]
      have hi' : i < n := by
        rcases Nat.lt_succ_iff_lt_or_eq.mp hi with h | h
        · exact h
        · exact absurd (h ▸ hsat) hn
      obtain ⟨h1, h2, h3⟩ := ih hi'
      exact ⟨Nat.lt_succ_of_lt h1, h2, h3⟩

theorem firstZeroCount_of_mem (l : List AnnServer)
    (h : ∃ s ∈ l, s.usercount = 0) :
    ∃ s, firstZeroCount l = some s ∧ s.usercount = 0 := by
  induction l with
  | nil => simp at h
  | cons a rest ih =>
    rw [firstZeroCount]
    by_cases ha : a.usercount = 0
    · exact ⟨a, by rw [if_pos ha], ha⟩
    · rw [if_neg ha]
      apply ih
      rcases h with ⟨s, hs, hz⟩
      rcases List.mem_cons.mp hs with rfl | hs
      · exact absurd hz ha
      · exact ⟨s, hs, hz⟩

/-! ## C7 -/

/-- C7: for every reputation value and non-decreasing threshold list with
first entry 0, `server_level` returns the highest index `i` with
`reputation ≥ T[i]`, and 0 when no threshold is satisfied (the function is
a total Lean function, so it has no failure modes). -/
theorem C7_server_level_highest_index (rm : List Int) (rep : Int)
    (hne : rm ≠ [])
    (hmono : ∀ j, j < rm.length → ∀ i, i ≤ j → rm.getD i 0 ≤ rm.getD j 0)
    (h0 : rm.getD 0 0 = 0) :
    ((∃ i, i < rm.length ∧ rep ≥ rm.getD i 0) →
      server_level rm rep < rm.length ∧
        rep ≥ rm.getD (server_level rm rep) 0 ∧
        ∀ j, j < rm.length → rep ≥ rm.getD j 0 → j ≤ server_level rm rep) ∧
    ((¬ ∃ i, i < rm.length ∧ rep ≥ rm.getD i 0) →
      server_level rm rep = 0) := by
  constructor
  · rintro ⟨i, hi, hsat⟩
    obtain ⟨h1, h2, _⟩ := server_level_scan_mem rm rep rm.length i hi hsat
    refine ⟨h1, h2, fun j hj hjsat => ?_⟩
    exact (server_level_scan_mem rm rep rm.length j hj hjsat).2.2
  · intro h
    exact server_level_scan_zero rm rep rm.length
      (fun i hi hsat => h ⟨i, hi, hsat⟩)

/-- Witness for C7 at the default table `[0, 1, 2, 3]` and reputation 2
(the highest satisfied index is 2). -/
theorem C7_witness :
    server_level [0, 1, 2, 3] 2 < 4 ∧
      (2 : Int) ≥ [(0 : Int), 1, 2, 3].getD (server_level [0, 1, 2, 3] 2) 0 ∧
      ∀ j, j < 4 → (2 : Int) ≥ [(0 : Int), 1, 2, 3].getD j 0 →
        j ≤ server_level [0, 1, 2, 3] 2 :=
  (C7_server_level_highest_index [0, 1, 2, 3] 2 (by decide) (by decide)
    (by decide)).1 ⟨2, by decide, by decide⟩

/-! ## C5 -/

/-- C5: `increase_reputation` is, for the location-based model, true iff the
user has at least one credential and some credential's server is working
(any-working); for the basic model, true iff the user's first credential
exists and its server is working; always false for fixed-IP; false whenever
the user has zero credentials; and `is_working` means not blocked,
distributing and active. -/
theorem C5_increase_reputation_cases (serverOf : Nat → Option OutlineServer)
    (keys : List Credential) :
    (increase_reputation serverOf keys LOCATIONED = true ↔
      keys ≠ [] ∧ ∃ k ∈ keys, serverWorking serverOf k = true) ∧
    (increase_reputation serverOf keys BASIC = true ↔
      ∃ k, keys.head? = some k ∧ serverWorking serverOf k = true) ∧
    (increase_reputation serverOf keys FIXED_IP = false) ∧
    (keys = [] → ∀ dm, increase_reputation serverOf keys dm = false) ∧
    (∀ s : OutlineServer, s.is_working = true ↔
      s.is_blocked = false ∧ s.is_distributing = true ∧ s.active = true) := by
  refine ⟨?_, ?_, ?_, ?_, ?_⟩
  · rw [increase_reputation, if_pos rfl]
    cases keys with
    | nil => simp
    | cons a rest =>
      simp [List.any_eq_true]
  · rw [increase_reputation, if_neg (by decide), if_neg (by decide)]
    cases keys with
    | nil => simp
    | cons a rest => simp
  · rw [increase_reputation, if_neg (by decide), if_pos rfl]
  · rintro rfl dm
    rw [increase_reputation]
    split
    · rfl
    · split
      · rfl
      · rfl
  · intro s
    rw [OutlineServer.is_working]
    cases s.is_blocked <;> cases s.is_distributing <;> cases s.active <;>
      simp

/-- Witness for C5: a user with zero credentials gains nothing under the
basic model. -/
theorem C5_witness :
    increase_reputation (fun _ => none) [] BASIC = false :=
  (C5_increase_reputation_cases (fun _ => none) []).2.2.2.1 rfl BASIC

/-! ## C9 -/

/-- C9: `deactivate` and `reactivate` act only on legacy credentials —
`deactivate` sets `removed`, clears `delete_date`/`deletion_cause` and
stamps the issue and transfer, `reactivate` clears them and resets
`removed`; on any non-legacy credential both are exact no-ops. -/
theorem C9_legacy_only_lifecycle (c : Credential) (issue : Option Nat)
    (transfer : Option ℚ) :
    (c.request_type = "legacy" →
      c.deactivate issue transfer =
        { c with
          user_issue := issue
          transfer := transfer
          removed := true
          delete_date := none
          deletion_cause := .NA } ∧
      c.reactivate =
        { c with
          user_issue := none
          transfer := none
          removed := false
          delete_date := none
          deletion_cause := .NA }) ∧
    (c.request_type ≠ "legacy" →
      c.deactivate issue transfer = c ∧ c.reactivate = c) := by
  constructor
  · intro h
    rw [Credential.deactivate, Credential.reactivate, if_pos h, if_pos h]
    exact ⟨rfl, rfl⟩
  · intro h
    rw [Credential.deactivate, Credential.reactivate, if_neg h, if_neg h]
    exact ⟨rfl, rfl⟩

/-- Witness for C9: a third-party credential is untouched by both calls. -/
theorem C9_witness :
    Credential.deactivate
      { id := 5, user := some 1, server := 2, outline_key_id := 9,
        request_type := "gtf" } (some 3) (some 7) =
      { id := 5, user := some 1, server := 2, outline_key_id := 9,
        request_type := "gtf" } ∧
    Credential.reactivate
      { id := 5, user := some 1, server := 2, outline_key_id := 9,
        request_type := "gtf" } =
      { id := 5, user := some 1, server := 2, outline_key_id := 9,
        request_type := "gtf" } :=
  (C9_legacy_only_lifecycle _ (some 3) (some 7)).2 (by decide)

/-! ## C6 -/

/-- C6: on any non-empty pool containing a server with usercount 0,
`find_server` returns a zero-usercount server for every value of the random
draw. -/
theorem C6_zero_usercount_priority (servers : List AnnServer) (prob : ℚ)
    (hne : servers ≠ []) (hz : ∃ s ∈ servers, s.usercount = 0) :
    ∃ s, find_server servers prob = some s ∧ s.usercount = 0 := by
  match servers, hne with
  | [a], _ =>
    refine ⟨a, ?_, ?_⟩
    · rw [find_server]
      simp
    · rcases hz with ⟨s, hs, h0⟩
      simp at hs
      exact hs ▸ h0
  | a :: b :: rest, _ =>
    obtain ⟨s, hfz, h0⟩ := firstZeroCount_of_mem _ hz
    refine ⟨s, ?_, h0⟩
    rw [find_server, if_pos (by simp), hfz]

/-- Witness for C6: a two-server pool where the idle server is second and
the draw is 37. -/
theorem C6_witness :
    ∃ s, find_server
      [⟨{ id := 1, stype := "legacy", active := true,
          is_distributing := true }, 4⟩,
       ⟨{ id := 2, stype := "legacy", active := true,
          is_distributing := true }, 0⟩] 37 = some s ∧
      s.usercount = 0 :=
  C6_zero_usercount_priority _ 37 (by decide)
    ⟨⟨{ id := 2, stype := "legacy", active := true,
        is_distributing := true }, 0⟩, by decide, rfl⟩

/-! ## C10 -/

theorem setNotOnServer_markAll (db : DB) (i : Nat) (ids : List Nat) :
    (db.setNotOnServer i).markAll ids = db.markAll (i :: ids) := by
  unfold DB.setNotOnServer DB.markAll
  simp only [List.map_map]
  congr 1
  apply List.map_congr_left
  intro c _
  simp only [Function.comp_apply, List.contains_cons]
  by_cases hci : c.id = i
  · simp [hci]
  · have : (c.id == i) = false := by simpa using hci
    simp [if_neg hci, this]

theorem remove_key_go_simulated (be : Backend)
    (hreal : be.real_vpn_servers = false) :
    ∀ (keys : List KeyDict) (failed : List Nat) (db : DB)
      (g m : List (Nat × Nat)),
      (∀ k ∈ keys, k.idField.isSome ∧ k.outline_key_id.isSome) →
      remove_key_go be keys failed db g m =
        ⟨none, failed, db.markAll (keys.filterMap (·.idField)), g, m⟩ := by
  intro keys
  induction keys with
  | nil =>
    intro failed db g m _
    simp [remove_key_go, DB.markAll]
  | cons key rest ih =>
    intro failed db g m hwf
    obtain ⟨hid, hok⟩ := hwf key (List.mem_cons_self key rest)
    obtain ⟨i, hi⟩ := Option.isSome_iff_exists.mp hid
    obtain ⟨okid, hokid⟩ := Option.isSome_iff_exists.mp hok
    rw [remove_key_go, hi]
    simp only [hreal, if_neg (Bool.false_ne_true), hokid]
    rw [ih failed (db.setNotOnServer i) g m
      (fun k hk => hwf k (List.mem_cons_of_mem key hk))]
    rw [setNotOnServer_markAll]
    simp [List.filterMap_cons, hi]

/-- C10: with `REAL_VPN_SERVERS` off, `remove_key_from_server` issues no
backend call, marks every key of the input list `exists_on_server=false`,
and returns the empty failed list (the keys being well-formed dicts carrying
`id` and `outline_key_id`). -/
theorem C10_simulated_mode_removal (be : Backend) (db : DB)
    (keys : List KeyDict) (hreal : be.real_vpn_servers = false)
    (hwf : ∀ k ∈ keys, k.idField.isSome ∧ k.outline_key_id.isSome) :
    (remove_key_from_server be db keys).err = none ∧
    (remove_key_from_server be db keys).failed = [] ∧
    (remove_key_from_server be db keys).gtfCalls = [] ∧
    (remove_key_from_server be db keys).managerCalls = [] ∧
    (remove_key_from_server be db keys).db =
      db.markAll (keys.filterMap (·.idField)) := by
  rw [remove_key_from_server,
    remove_key_go_simulated be hreal keys [] db [] [] hwf]
  exact ⟨rfl, rfl, rfl, rfl, rfl⟩

/-- Witness for C10: two well-formed keys in simulated mode. -/
theorem C10_witness :
    (remove_key_from_server simBackend ⟨simRows, 3⟩
      (get_key_dict simRows)).err = none ∧
    (remove_key_from_server simBackend ⟨simRows, 3⟩
      (get_key_dict simRows)).failed = [] :=
  ⟨(C10_simulated_mode_removal simBackend ⟨simRows, 3⟩ (get_key_dict simRows)
      rfl (by decide)).1,
   (C10_simulated_mode_removal simBackend ⟨simRows, 3⟩ (get_key_dict simRows)
      rfl (by decide)).2.1⟩

/-! ## C3 -/

/-- C3 (divergence witness): in real-backend mode, a key on an active GTF
server whose HTTP DELETE returns 404 is marked `exists_on_server=false`,
but — because the GTF branch falls through into the central/legacy manager
delete, which then fails — its id ends up in the returned failed list, and
a spurious manager delete call is issued against the GTF server.  The claim
(and the code's own comments) say a 404 key is "already gone" and must not
be reported failed. -/
theorem C3_gtf_404_reported_failed :
    gtfRun.failed = [1] ∧
    gtfRun.db.credentials = [{ gtfCred with exists_on_server := false }] ∧
    gtfRun.managerCalls = [(7, 9)] := by
  refine ⟨?_, ?_, ?_⟩ <;> decide

/-! ## C1 -/

/-- C1 (divergence witness): when the 2nd provisioning call of a 2-server
location-based creation raises, the `created_keys` dicts passed to
`remove_key_from_server` carry no `id` entry, so the rollback itself raises
`KeyError` on its first key: the call fails with `KeyError` instead of the
allocation error, and **no** revocation call reaches the previously
provisioned server (no GTF and no manager delete is issued) — the key
created on server 1 stays provisioned remotely.  Only the database rows are
gone (rolled back by the transaction). -/
theorem C1_rollback_raises_keyerror :
    c1run.result = .error (.rollback (.keyError "id")) ∧
    c1run.db = ⟨[], 1⟩ ∧
    c1run.gtfCalls = [] ∧
    c1run.managerCalls = [] := by
  refine ⟨?_, ?_, ?_, ?_⟩ <;> rfl

/-! ## C2 -/

/-- C2 counterexample: the user's only non-legacy credential is inactive and
removed, yet `create` still fails with the duplicate-key error (the filter
`OutlineUser.objects.filter(user=user).exclude(request_type='legacy')`
ignores the `active`/`removed` flags), refuting the claim's "a user whose
only non-legacy credentials are removed or inactive is not rejected". -/
theorem C2_removed_credential_still_rejected :
    c2run.result = .error .duplicateKey ∧
    c2run.db = ⟨[c2cred], 2⟩ ∧
    ¬ ∃ c ∈ ([c2cred] : List Credential),
      c.active = true ∧ c.removed = false ∧ c.request_type ≠ "legacy" := by
  refine ⟨rfl, rfl, ?_⟩
  decide

theorem create_checked_not_duplicate (env : Env) (user : Vpnuser) (db : DB)
    (rt? : Option String) (mp : Option Int) (ui : Option Nat)
    (hdup : db.credentials.any (fun c =>
      c.user == some user.id && c.request_type != "legacy") = false) :
    (create_checked env user db rt? mp ui).result ≠
      .error .duplicateKey := by
  unfold create_checked
  rw [hdup]
  simp only [Bool.false_eq_true, if_false]
  intro h
  repeat' split at h
  all_goals simp at h

/-- C2 amended: `create` fails with the duplicate-key error iff the user
already holds **any** non-legacy credential row, active or not, removed or
not; and on that rejection the database is unchanged. -/
theorem C2_duplicate_iff_any_nonlegacy (env : Env) (users : List Vpnuser)
    (db : DB) (username : String) (rt? : Option String) (mp : Option Int)
    (ui : Option Nat) (u : Vpnuser)
    (hu : users.find? (fun x => x.username == username) = some u) :
    ((create env users db username rt? mp ui).result =
        .error .duplicateKey ↔
      ∃ c ∈ db.credentials, c.user = some u.id ∧ c.request_type ≠ "legacy") ∧
    ((create env users db username rt? mp ui).result =
        .error .duplicateKey →
      (create env users db username rt? mp ui).db = db) := by
  have hc : create env users db username rt? mp ui =
      create_checked env u db rt? mp ui := by
    unfold create
    rw [hu]
  rw [hc]
  by_cases hdup : db.credentials.any (fun c =>
      c.user == some u.id && c.request_type != "legacy") = true
  · have hres : create_checked env u db rt? mp ui =
        ⟨.error .duplicateKey, db, none, [], []⟩ := by
      unfold create_checked
      rw [hdup]
      simp
    rw [hres]
    constructor
    · simp only [true_iff]
      obtain ⟨c, hcmem, hcp⟩ := List.any_eq_true.mp hdup
      refine ⟨c, hcmem, ?_, ?_⟩
      · exact eq_of_beq (Bool.and_elim_left hcp)
      · simpa using Bool.and_elim_right hcp
    · intro _
      rfl
  · rw [Bool.not_eq_true] at hdup
    constructor
    · constructor
      · intro h
        exact absurd h (create_checked_not_duplicate env u db rt? mp ui hdup)
      · rintro ⟨c, hcmem, hcu, hct⟩
        exfalso
        have : db.credentials.any (fun c =>
            c.user == some u.id && c.request_type != "legacy") = true :=
          List.any_eq_true.mpr ⟨c, hcmem, by
            simp [hcu, bne_iff_ne, hct]⟩
        rw [hdup] at this
        cases this
    · intro h
      exact absurd h (create_checked_not_duplicate env u db rt? mp ui hdup)

/-- Witness for the amended C2: the removed, inactive third-party credential
of the counterexample DB still triggers the duplicate-key rejection. -/
theorem C2_amended_witness :
    (create c2env [c1user] ⟨[c2cred], 2⟩ "u" (some "central") none
      none).result = .error .duplicateKey :=
  (C2_duplicate_iff_any_nonlegacy c2env [c1user] ⟨[c2cred], 2⟩ "u"
    (some "central") none none c1user rfl).1.mpr
    ⟨c2cred, by decide, by decide, by decide⟩

/-! ## C8 -/

theorem legacyLoop_ok (env : Env) (user : Vpnuser) (gid : Option Int)
    (rep : Int) :
    ∀ (servers : List AnnServer) (db : DB) (ck : List KeyDict) (k : Nat)
      (ou : Option Credential) (pstr : Option String)
      (r : Option Credential × Option String) (db' : DB)
      (ck' : List KeyDict),
      legacyLoop env user gid rep servers db ck k ou pstr =
        (.ok r, db', ck') →
      ∃ rows : List Credential,
        db'.credentials = db.credentials ++ rows ∧
        rows.length = servers.length ∧
        ∀ row ∈ rows, row.group_id = gid ∧ row.request_type = "legacy" ∧
          row.reputation = rep ∧ row.user = some user.id := by
  intro servers
  induction servers with
  | nil =>
    intro db ck k ou pstr r db' ck' h
    rw [legacyLoop] at h
    injection h with h1 h2
    injection h2 with h2 h3
    refine ⟨[], ?_, rfl, by simp⟩
    rw [← h2]
    simp
  | cons a rest ih =>
    intro db ck k ou pstr r db' ck' h
    rw [legacyLoop] at h
    rcases hp : env.provision a.server.id with _ | ⟨okid, okey⟩
    · rw [hp] at h
      cases h
    · rw [hp] at h
      dsimp only at h
      obtain ⟨rows, hcred, hlen, hprops⟩ := ih _ _ _ _ _ _ _ _ h
      rw [List.append_assoc, List.singleton_append] at hcred
      refine ⟨_, hcred, ?_, ?_⟩
      · simp [hlen]
      · intro row hrow
        rcases List.mem_cons.mp hrow with rfl | hmem
        · exact ⟨rfl, rfl, rfl, rfl⟩
        · exact hprops row hmem

theorem nextGroupId_eq_max_add_one (db : DB) (m : Int)
    (hm : maxGroupId db = some m) : nextGroupId db = m + 1 := by
  rw [nextGroupId, hm]
  by_cases h0 : m = 0
  · simp [h0]
  · simp [h0]

/-- C8: a location-based legacy `create_keys` run that succeeds with every
active location contributing a chosen server persists exactly one credential
row per chosen server — for 3 active locations, exactly 3 new rows — and all
rows of the batch share the single group id `max(existing group_id) + 1`. -/
theorem C8_locationed_batch_group (env : Env) (user : Vpnuser) (db : DB)
    (m : Int) (r : Option Credential × Option String)
    (hm : maxGroupId db = some m)
    (hok : (create_keys env user "legacy" (some LOCATIONED) db).result =
      .ok r)
    (hall : (get_server env.be.servers db env.activeLocations user
        ((chosenLevel env user db LOCATIONED : Nat) : Int) LOCATIONED none
        env.draws).length = env.activeLocations.length)
    (h3 : env.activeLocations.length = 3) :
    ∃ rows : List Credential,
      (create_keys env user "legacy" (some LOCATIONED) db).db.credentials =
        db.credentials ++ rows ∧
      rows.length = 3 ∧
      (∀ row ∈ rows, row.group_id = some (m + 1)) := by
  have hng := nextGroupId_eq_max_add_one db m hm
  revert hok
  unfold create_keys
  simp only [if_pos rfl, Option.getD_some, if_true]
  have hcl : server_level env.reputation_map
      (if increase_reputation (objectsGetServer env.be.servers)
          (db.userKeys user.id) LOCATIONED then
        after_new_key user.reputation
      else user.reputation) = chosenLevel env user db LOCATIONED := rfl
  rw [hcl]
  split
  · intro hok
    cases hok
  · split
    · rename_i e db' ck heq
      intro hok
      cases hok
    · rename_i res db' ck heq
      intro hok
      obtain ⟨rows, hcred, hlen, hprops⟩ :=
        legacyLoop_ok env user (some (nextGroupId db)) _ _ _ _ _ _ _ _ _ _ heq
      refine ⟨rows, hcred, ?_, ?_⟩
      · rw [hlen, hall, h3]
      · intro row hrow
        rw [(hprops row hrow).1, hng]

/-- Witness for C8: with 3 active locations and max existing group id 4, a
successful location-based create_keys yields exactly 3 new rows, all with
group id 5. -/
theorem C8_witness :
    ∃ rows : List Credential,
      (create_keys c8env c8user "legacy" (some LOCATIONED)
        ⟨[c8old], 5⟩).db.credentials = [c8old] ++ rows ∧
      rows.length = 3 ∧
      ∀ row ∈ rows, row.group_id = some (4 + 1) :=
  C8_locationed_batch_group c8env c8user ⟨[c8old], 5⟩ 4
    (some c8lastRow, none) rfl rfl rfl rfl

/-! ## C4 -/

theorem weightWalk_ne_none (t : ℚ) :
    ∀ (l : List AnnServer) (p : ℚ), l ≠ [] → ∃ s, weightWalk t l p = some s
  | [], _, h => absurd rfl h
  | [s], _, _ => ⟨s, rfl⟩
  | s :: s' :: rest, p, _ => by
    simp only [weightWalk]
    split
    · exact ⟨s, rfl⟩
    · exact weightWalk_ne_none t (s' :: rest) _ (by simp)

theorem find_server_nil (p : ℚ) : find_server [] p = none := rfl

theorem find_server_of_ne_nil (l : List AnnServer) (p : ℚ) (h : l ≠ []) :
    ∃ s, find_server l p = some s := by
  match l, h with
  | [a], _ =>
    refine ⟨a, ?_⟩
    rw [find_server]
    simp
  | a :: b :: rest, _ =>
    rw [find_server, if_pos (by simp)]
    match hz : firstZeroCount (a :: b :: rest) with
    | some s => exact ⟨s, rfl⟩
    | none =>
      exact weightWalk_ne_none _ (a :: b :: rest) p
        (List.cons_ne_nil a (b :: rest))

theorem sortDescUC_eq_nil_iff (l : List AnnServer) :
    sortDescUC l = [] ↔ l = [] := by
  cases l with
  | nil => simp [sortDescUC]
  | cons a rest =>
    simp only [sortDescUC]
    constructor
    · intro h
      exfalso
      have : ∀ (s : AnnServer) (m : List AnnServer), insertDescUC s m ≠ [] := by
        intro s m
        cases m with
        | nil => simp [insertDescUC]
        | cons b bs =>
          rw [insertDescUC]
          split
          · simp
          · simp
      exact this a (sortDescUC rest) h
    · intro h
      cases h

theorem get_server_by_level_eq_nil_iff (servers : List OutlineServer)
    (db : DB) (user : Vpnuser) (level : Int) (lim ex : Bool)
    (dm : Int) (loc : Option Nat) :
    get_server_by_level servers db user level lim ex dm loc = [] ↔
      (match loc with
        | some l =>
          (servers.filter (baseFilter user level lim dm)).filter
            (fun (s : OutlineServer) => s.location == some l)
        | none => servers.filter (baseFilter user level lim dm)).filter
        (fun (s : OutlineServer) => if ex then
          !(db.prevServerIds user.id).contains s.id else true) = [] := by
  unfold get_server_by_level
  rw [sortDescUC_eq_nil_iff, List.map_eq_nil_iff]
  cases loc <;> cases ex <;> simp

theorem get_server_by_level_comb (servers : List OutlineServer) (db : DB)
    (user : Vpnuser) (level : Int) (lim ex : Bool) (dm : Int)
    (loc : Option Nat) :
    get_server_by_level servers db user level lim ex dm loc =
      sortDescUC ((servers.filter (fun s =>
        exPass db user ex s &&
          (locPass loc s && baseFilter user level lim dm s))).map
        (fun s => ⟨s, db.usercount s.id⟩)) := by
  unfold get_server_by_level
  cases loc <;> cases ex <;>
    simp [List.filter_filter, locPass, exPass]

theorem get_server_by_level_spec_comb (servers : List OutlineServer)
    (db : DB) (user : Vpnuser) (level : Int) (lim ex : Bool) (dm : Int)
    (loc : Option Nat) :
    get_server_by_level_spec servers db user level lim ex dm loc =
      sortDescUC ((servers.filter (fun s =>
        exPass db user ex s &&
          (locPass loc s && specBaseFilter user level lim dm s))).map
        (fun s => ⟨s, db.usercount s.id⟩)) := by
  unfold get_server_by_level_spec
  cases loc <;> cases ex <;>
    simp [List.filter_filter, locPass, exPass]

theorem baseFilter_relax (user : Vpnuser) (level dm : Int)
    (s : OutlineServer) (h : baseFilter user level true dm s = false) :
    specBaseFilter user level false dm s =
      baseFilter user level false dm s := by
  unfold baseFilter specBaseFilter at *
  cases h1 : s.stype == "legacy" <;> cases h2 : s.active <;>
    cases h3 : s.is_distributing <;> cases h4 : s.dist_model == dm <;>
    cases h5 : s.user_src == user.channel <;> simp_all <;> omega

theorem spec_pool_eq_of_exact_empty (servers : List OutlineServer) (db : DB)
    (user : Vpnuser) (level : Int) (ex : Bool) (dm : Int) (loc : Option Nat)
    (h : get_server_by_level servers db user level true ex dm loc = []) :
    get_server_by_level_spec servers db user level false ex dm loc =
      get_server_by_level servers db user level false ex dm loc := by
  rw [get_server_by_level_comb] at h
  rw [sortDescUC_eq_nil_iff, List.map_eq_nil_iff,
    List.filter_eq_nil_iff] at h
  rw [get_server_by_level_comb, get_server_by_level_spec_comb]
  congr 1
  congr 1
  apply List.filter_congr
  intro s hs
  have hs' := h s hs
  cases hex : exPass db user ex s
  · simp
  · cases hloc : locPass loc s
    · simp
    · simp only [hex, hloc, Bool.true_and] at hs' ⊢
      have hb : baseFilter user level true dm s = false := by
        simpa using hs'
      rw [baseFilter_relax user level dm s hb]

theorem spec_pool_exact_eq (servers : List OutlineServer) (db : DB)
    (user : Vpnuser) (level : Int) (ex : Bool) (dm : Int)
    (loc : Option Nat) :
    get_server_by_level_spec servers db user level true ex dm loc =
      get_server_by_level servers db user level true ex dm loc := rfl

theorem tryPools_cons (draws : Nat → ℚ) (p : List AnnServer)
    (rest : List (List AnnServer)) (n : Nat) :
    tryPools draws (p :: rest) n =
      match find_server p (draws n) with
      | some s => (some s, n + 1)
      | none => tryPools draws rest (n + 1) := rfl

theorem eq_nil_of_find_server_none (l : List AnnServer) (p : ℚ)
    (h : find_server l p = none) : l = [] := by
  by_contra hne
  obtain ⟨s, hs⟩ := find_server_of_ne_nil l p hne
  rw [hs] at h
  cases h

theorem tryPools_loc_eq (servers : List OutlineServer) (db : DB)
    (user : Vpnuser) (level : Int) (dm : Int) (loc : Option Nat)
    (draws : Nat → ℚ) (n : Nat) :
    tryPools draws (poolsAt (fun lim ex l =>
      get_server_by_level_spec servers db user level lim ex dm l) loc) n =
    tryPools draws (poolsAt (fun lim ex l =>
      get_server_by_level servers db user level lim ex dm l) loc) n := by
  unfold poolsAt
  beta_reduce
  rw [spec_pool_exact_eq, spec_pool_exact_eq]
  by_cases h1 :
      get_server_by_level servers db user level true true dm loc = []
  · have hf1 : find_server
        (get_server_by_level servers db user level true true dm loc)
        (draws n) = none := by
      rw [h1]
      rfl
    rw [spec_pool_eq_of_exact_empty servers db user level true dm loc h1]
    by_cases h3 :
        get_server_by_level servers db user level true false dm loc = []
    · rw [spec_pool_eq_of_exact_empty servers db user level false dm loc h3]
    · by_cases h2 :
          get_server_by_level servers db user level false true dm loc = []
      · have hf2 : find_server
            (get_server_by_level servers db user level false true dm loc)
            (draws (n + 1)) = none := by
          rw [h2]
          rfl
        obtain ⟨s, hs⟩ := find_server_of_ne_nil _ (draws (n + 1 + 1)) h3
        simp only [tryPools_cons, hf1, hf2, hs]
      · obtain ⟨s, hs⟩ := find_server_of_ne_nil _ (draws (n + 1)) h2
        simp only [tryPools_cons, hf1, hs]
  · obtain ⟨s, hs⟩ := find_server_of_ne_nil _ (draws n) h1
    simp only [tryPools_cons, hs]

theorem get_server_go_cons (mk : Bool → Bool → Option Nat → List AnnServer)
    (draws : Nat → ℚ) (loc : Option Nat) (rest : List (Option Nat))
    (n : Nat) :
    get_server_go mk draws (loc :: rest) n =
      match tryPools draws (poolsAt mk loc) n with
      | (some s, n') => s :: get_server_go mk draws rest n'
      | (none, n') => get_server_go mk draws rest n' := rfl

theorem get_server_go_spec_eq (servers : List OutlineServer) (db : DB)
    (user : Vpnuser) (level : Int) (dm : Int) (draws : Nat → ℚ) :
    ∀ (locs : List (Option Nat)) (n : Nat),
      get_server_go (fun lim ex l =>
        get_server_by_level_spec servers db user level lim ex dm l) draws
        locs n =
      get_server_go (fun lim ex l =>
        get_server_by_level servers db user level lim ex dm l) draws
        locs n := by
  intro locs
  induction locs with
  | nil =>
    intro n
    rfl
  | cons loc rest ih =>
    intro n
    rw [get_server_go_cons, get_server_go_cons, tryPools_loc_eq]
    cases htp : tryPools draws (poolsAt (fun lim ex l =>
        get_server_by_level servers db user level lim ex dm l) loc) n with
    | mk o n' =>
      cases o <;> simp [ih]

theorem get_server_single (servers : List OutlineServer) (db : DB)
    (activeLocations : List Nat) (user : Vpnuser) (level : Int)
    (dist_model : Int) (location : Option Nat) (draws : Nat → ℚ)
    (hdm : dist_model ≠ LOCATIONED) :
    get_server servers db activeLocations user level dist_model location
      draws =
      match tryPools draws (poolsAt (fun lim ex l =>
        get_server_by_level servers db user level lim ex dist_model l)
        location) 0 with
      | (some s, _) => [s]
      | (none, _) => [] := by
  unfold get_server
  rw [if_neg hdm, get_server_go_cons]
  cases htp : tryPools draws (poolsAt (fun lim ex l =>
      get_server_by_level servers db user level lim ex dist_model l)
      location) 0 with
  | mk o n' =>
    cases o <;> rfl

/-- C4: `get_server` tries, per location, the four pools in the priority
order (exclude-previous, exact-tier), (exclude-previous, relaxed-tier),
(no-exclude, exact-tier), (no-exclude, relaxed-tier); the first pool that
yields a server wins (with the draw stream indexed by attempt), a location
whose pools are all empty contributes nothing, and the whole selection is
extensionally the spec's wording of the relaxation ("tier or higher"),
because the relaxed pool is only consulted when the exact-tier pool is
empty. -/
theorem C4_pool_priority_order (servers : List OutlineServer) (db : DB)
    (activeLocations : List Nat) (user : Vpnuser) (level : Int)
    (dist_model : Int) (location : Option Nat) (draws : Nat → ℚ) :
    (get_server_spec servers db activeLocations user level dist_model
        location draws =
      get_server servers db activeLocations user level dist_model location
        draws) ∧
    (dist_model ≠ LOCATIONED →
      ((∀ lim ex, get_server_by_level servers db user level lim ex
          dist_model location = []) →
        get_server servers db activeLocations user level dist_model
          location draws = []) ∧
      (get_server_by_level servers db user level true true dist_model
          location ≠ [] →
        get_server servers db activeLocations user level dist_model
          location draws =
        (find_server (get_server_by_level servers db user level true true
          dist_model location) (draws 0)).toList) ∧
      (get_server_by_level servers db user level true true dist_model
          location = [] →
        get_server_by_level servers db user level false true dist_model
          location ≠ [] →
        get_server servers db activeLocations user level dist_model
          location draws =
        (find_server (get_server_by_level servers db user level false true
          dist_model location) (draws 1)).toList) ∧
      (get_server_by_level servers db user level true true dist_model
          location = [] →
        get_server_by_level servers db user level false true dist_model
          location = [] →
        get_server_by_level servers db user level true false dist_model
          location ≠ [] →
        get_server servers db activeLocations user level dist_model
          location draws =
        (find_server (get_server_by_level servers db user level true false
          dist_model location) (draws 2)).toList) ∧
      (get_server_by_level servers db user level true true dist_model
          location = [] →
        get_server_by_level servers db user level false true dist_model
          location = [] →
        get_server_by_level servers db user level true false dist_model
          location = [] →
        get_server_by_level servers db user level false false dist_model
          location ≠ [] →
        get_server servers db activeLocations user level dist_model
          location draws =
        (find_server (get_server_by_level servers db user level false false
          dist_model location) (draws 3)).toList)) := by
  constructor
  · unfold get_server get_server_spec
    exact get_server_go_spec_eq servers db user level dist_model draws _ 0
  · intro hdm
    rw [get_server_single servers db activeLocations user level dist_model
      location draws hdm]
    unfold poolsAt
    beta_reduce
    refine ⟨?_, ?_, ?_, ?_, ?_⟩
    · intro hall
      have h1 := hall true true
      have h2 := hall false true
      have h3 := hall true false
      have h4 := hall false false
      have hf : ∀ m, find_server ([] : List AnnServer) (draws m) = none :=
        fun m => rfl
      simp only [tryPools_cons, h1, h2, h3, h4, hf]
      rfl
    · intro h1
      obtain ⟨s, hs⟩ := find_server_of_ne_nil _ (draws 0) h1
      simp only [tryPools_cons, hs, Option.toList]
    · intro h1 h2
      have hf1 : find_server
          (get_server_by_level servers db user level true true dist_model
            location) (draws 0) = none := by
        rw [h1]
        rfl
      obtain ⟨s, hs⟩ := find_server_of_ne_nil _ (draws (0 + 1)) h2
      simp only [tryPools_cons, hf1, hs, Option.toList]
    · intro h1 h2 h3
      have hf1 : find_server
          (get_server_by_level servers db user level true true dist_model
            location) (draws 0) = none := by
        rw [h1]
        rfl
      have hf2 : find_server
          (get_server_by_level servers db user level false true dist_model
            location) (draws (0 + 1)) = none := by
        rw [h2]
        rfl
      obtain ⟨s, hs⟩ := find_server_of_ne_nil _ (draws (0 + 1 + 1)) h3
      simp only [tryPools_cons, hf1, hf2, hs, Option.toList]
    · intro h1 h2 h3 h4
      have hf1 : find_server
          (get_server_by_level servers db user level true true dist_model
            location) (draws 0) = none := by
        rw [h1]
        rfl
      have hf2 : find_server
          (get_server_by_level servers db user level false true dist_model
            location) (draws (0 + 1)) = none := by
        rw [h2]
        rfl
      have hf3 : find_server
          (get_server_by_level servers db user level true false dist_model
            location) (draws (0 + 1 + 1)) = none := by
        rw [h3]
        rfl
      obtain ⟨s, hs⟩ := find_server_of_ne_nil _ (draws (0 + 1 + 1 + 1)) h4
      simp only [tryPools_cons, hf1, hf2, hf3, hs, Option.toList]

/-- Witness for C4: with one eligible server, the first pool
(exclude-previous, exact-tier) is non-empty and wins. -/
theorem C4_witness :
    get_server [c4srv] ⟨[], 1⟩ [] c1user 0 BASIC none (fun _ => 0) =
      (find_server (get_server_by_level [c4srv] ⟨[], 1⟩ c1user 0 true true
        BASIC none) 0).toList :=
  ((C4_pool_priority_order [c4srv] ⟨[], 1⟩ [] c1user 0 BASIC none
    (fun _ => 0)).2 (by decide)).2.1 (by decide)

end LP
